import Mathlib

/-
Verification development for the LLM dispatcher service
(llm_dispatcher/app.py): provider adapters, dispatch router,
stream relay and health aggregator, shallowly embedded.

Upstream I/O is represented by explicit connection-outcome values
(status code, body, decoded frame list, or a raised-exception marker);
each adapter is a total function from such an outcome to its result.
Server-sent wire events are represented by their decoded classification
(Token / Done / Failed), which is injective per variant.
-/

set_option linter.all false

namespace LlmDispatcher

/-- Python truthiness of an optional string: None and the empty string are falsy. -/
def optTruthy : Option String → Bool
  | none => false
  | some s => s ≠ ""

/-- Python `a or b` for an optional string `a` and a string fallback `b`. -/
def pyOr (a : Option String) (b : String) : String :=
  match a with
  | none => b
  | some s => if s = "" then b else s

/-- Python `a or b` on two strings. -/
def pyOrS (a b : String) : String := if a = "" then b else a

/-- Process configuration, read once from the environment at startup
(OLLAMA_MODEL and LLM_MODEL both derive from the LLM_MODEL variable,
with different fallbacks, hence separate fields here). -/
structure Config where
  LLM_API_KEY : Option String := none
  LLM_MODEL : String := "gpt-3.5-turbo"
  OLLAMA_HOST : String := "llm"
  OLLAMA_PORT : Nat := 11434
  OLLAMA_MODEL : String := "gemma3n:e2b"
  VLLM_HOST : String := "llm-vllm"
  VLLM_PORT : Nat := 8100
  VLLM_MODEL : String := "facebook/opt-125m"
deriving DecidableEq

/-- The configuration holding every environment default. -/
def defaultCfg : Config := {}

/-- The provider-result dictionary shape (`Dict[str, Any]` essence): the union
of the fields the four adapters may populate. Absent keys are `none`. -/
structure LLMResult where
  response : Option String := none
  model : Option String := none
  total_duration : Option Nat := none
  load_duration : Option Nat := none
  prompt_eval_duration : Option Nat := none
  eval_duration : Option Nat := none
  eval_count : Option Nat := none
  usage : List (String × Nat) := []
  finish_reason : Option String := none
  total_tokens : Option Nat := none
  prompt_tokens : Option Nat := none
  completion_tokens : Option Nat := none
  input_tokens : Option Nat := none
  output_tokens : Option Nat := none
deriving DecidableEq

/-- An adapter's single-shot outcome: a success dictionary or an error dictionary. -/
inductive ProviderResult
  | ok (r : LLMResult)
  | err (msg : String)
deriving DecidableEq

/-- An outbound HTTP call as issued: its URL and the timeout argument passed
(none when the call passes no timeout). -/
structure HttpCall where
  url : String
  timeout : Option Nat
deriving DecidableEq

/-- Outcome of a blocking POST to the Ollama generate endpoint. -/
inductive OllamaConn
  | timeout
  | exn (msg : String)
  | resp (status : Nat) (text : String) (body : LLMResult)
deriving DecidableEq

def ollamaGenerateUrl (cfg : Config) : String :=
  "http://" ++ cfg.OLLAMA_HOST ++ ":" ++ toString cfg.OLLAMA_PORT ++ "/api/generate"

/-- The generate payload built by the Ollama adapter. -/
structure OllamaPayload where
  model : String
  prompt : String
  stream : Bool
deriving DecidableEq

def ollamaPayload (cfg : Config) (prompt : String) (model : Option String)
    (stream : Bool) : OllamaPayload :=
  { model := pyOr model cfg.OLLAMA_MODEL, prompt := prompt, stream := stream }

/-- The HTTP call query_ollama issues: posts with timeout=60. -/
def ollamaQueryCall (cfg : Config) : HttpCall :=
  { url := ollamaGenerateUrl cfg, timeout := some 60 }

/-- Single-shot Ollama adapter: passes the 200 body through verbatim; a non-200
status becomes an error naming the status and body; a timeout or other raised
exception becomes an error dictionary. -/
def query_ollama (cfg : Config) (conn : OllamaConn) (prompt : String)
    (model : Option String) : ProviderResult :=
  match conn with
  | .timeout => .err "Request to Ollama timed out"
  | .exn m => .err ("Failed to query Ollama: " ++ m)
  | .resp status text body =>
      if status = 200 then .ok body
      else .err ("Ollama returned status " ++ toString status ++ ": " ++ text)

/-- One element of a vLLM completion response's choices array. -/
structure VllmChoice where
  text : String
  finish_reason : Option String := none
deriving DecidableEq

/-- Parsed body of a vLLM completions response. -/
structure VllmData where
  model : Option String := none
  choices : List VllmChoice := []
  usage : List (String × Nat) := []
deriving DecidableEq

/-- Outcome of a blocking POST to the vLLM completions endpoint. -/
inductive VllmConn
  | timeout
  | exn (msg : String)
  | resp (status : Nat) (text : String) (data : VllmData)
deriving DecidableEq

def vllmCompletionsUrl (cfg : Config) : String :=
  "http://" ++ cfg.VLLM_HOST ++ ":" ++ toString cfg.VLLM_PORT ++ "/v1/completions"

/-- The HTTP call query_vllm issues: posts with timeout=60. -/
def vllmQueryCall (cfg : Config) : HttpCall :=
  { url := vllmCompletionsUrl cfg, timeout := some 60 }

/-- Single-shot vLLM adapter: extracts the first choice's text, defaults the
model from the request, and carries usage through; indexing an empty choices
array raises and is caught as a generic error. -/
def query_vllm (cfg : Config) (conn : VllmConn) (prompt : String)
    (model : Option String) : ProviderResult :=
  match conn with
  | .timeout => .err "Request to vLLM timed out"
  | .exn m => .err ("Failed to query vLLM: " ++ m)
  | .resp status text data =>
      if status = 200 then
        match data.choices with
        | [] => .err "Failed to query vLLM: list index out of range"
        | c :: _ =>
            .ok { response := some c.text,
                  model := some (data.model.getD (pyOr model cfg.VLLM_MODEL)),
                  usage := data.usage,
                  finish_reason := some (c.finish_reason.getD "stop") }
      else .err ("vLLM returned status " ++ toString status ++ ": " ++ text)

/-- A successful OpenAI chat completion, reduced to the fields the adapter reads. -/
structure OpenAIResponse where
  content : String
  model : String
  total_tokens : Nat := 0
  prompt_tokens : Nat := 0
  completion_tokens : Nat := 0
deriving DecidableEq

/-- Outcome of an OpenAI client completion call. -/
inductive OpenAICall
  | exn (msg : String)
  | ok (r : OpenAIResponse)
deriving DecidableEq

/-- The keyword arguments query_openai passes to the client completion call:
model, max_tokens, and no timeout argument. -/
structure OpenAICreateArgs where
  model : String
  max_tokens : Nat
  timeout : Option Nat
deriving DecidableEq

def openaiCreateArgs (cfg : Config) (model : Option String) : OpenAICreateArgs :=
  { model := pyOr model cfg.LLM_MODEL, max_tokens := 1000, timeout := none }

/-- Single-shot OpenAI adapter. -/
def query_openai (cfg : Config) (clientOk : Bool) (call : OpenAICall)
    (prompt : String) (model : Option String) : ProviderResult :=
  if !clientOk then .err "OpenAI client not available"
  else
    match call with
    | .exn m => .err ("Failed to query OpenAI: " ++ m)
    | .ok r =>
        .ok { response := some r.content, model := some r.model,
              total_tokens := some r.total_tokens,
              prompt_tokens := some r.prompt_tokens,
              completion_tokens := some r.completion_tokens }

/-- A successful Anthropic message, reduced to the fields the adapter reads. -/
structure AnthropicResponse where
  text : String
  model : String
  input_tokens : Nat := 0
  output_tokens : Nat := 0
deriving DecidableEq

/-- Outcome of an Anthropic client message call. -/
inductive AnthropicCall
  | exn (msg : String)
  | ok (r : AnthropicResponse)
deriving DecidableEq

/-- The model name the Anthropic adapter requests: the explicit model, else
the configured model, else the hard-coded fallback. -/
def anthropicRequestModel (cfg : Config) (model : Option String) : String :=
  pyOr model (pyOrS cfg.LLM_MODEL "claude-3-sonnet-20240229")

/-- Single-shot Anthropic adapter. -/
def query_anthropic (cfg : Config) (clientOk : Bool) (call : AnthropicCall)
    (prompt : String) (model : Option String) : ProviderResult :=
  if !clientOk then .err "Anthropic client not available"
  else
    match call with
    | .exn m => .err ("Failed to query Anthropic: " ++ m)
    | .ok r =>
        .ok { response := some r.text, model := some r.model,
              input_tokens := some r.input_tokens,
              output_tokens := some r.output_tokens }

/-- One decoded wire event of the unified stream: a partial-text token, a
terminal metadata object, or a terminal error object. -/
inductive StreamEvent
  | token (text : String)
  | done (model : String) (metrics : List (String × Nat))
  | failed (msg : String)
deriving DecidableEq

/-- One line of the Ollama newline-delimited JSON stream: blank (skipped by
the relay), undecodable JSON, or a decoded chunk object. -/
structure OllamaChunk where
  response : Option String := none
  done : Bool := false
  model : Option String := none
  total_duration : Option Nat := none
  load_duration : Option Nat := none
  prompt_eval_duration : Option Nat := none
  eval_duration : Option Nat := none
  eval_count : Option Nat := none
deriving DecidableEq

inductive OllamaLine
  | empty
  | bad
  | good (c : OllamaChunk)
deriving DecidableEq

/-- The error message produced when decoding an Ollama stream line raises. -/
def ollamaDecodeErrMsg : String := "Failed to stream from Ollama: invalid frame"

/-- The final metadata event stream_ollama emits for a done chunk. -/
def ollamaDoneMeta (cfg : Config) (model : Option String) (c : OllamaChunk) : StreamEvent :=
  StreamEvent.done (c.model.getD (pyOr model cfg.OLLAMA_MODEL))
    [("total_duration", c.total_duration.getD 0),
     ("load_duration", c.load_duration.getD 0),
     ("prompt_eval_duration", c.prompt_eval_duration.getD 0),
     ("eval_duration", c.eval_duration.getD 0),
     ("eval_count", c.eval_count.getD 0)]

/-- The line loop of stream_ollama, with `abort` the exception the line
iterator raises once the listed lines are exhausted (none when the stream
ends cleanly): blank lines are skipped; an undecodable line raises, is
caught, and yields one error event ending the stream; a decoded chunk yields
a token when its response field is truthy and the done metadata when its done
flag is set, and the loop continues in every case (the source has no break
after the done chunk); a clean end yields nothing further, while a
mid-stream exception is caught and yields one error event. -/
def streamOllamaLines (cfg : Config) (model : Option String) :
    List OllamaLine → Option String → List StreamEvent
  | [], none => []
  | [], some m => [StreamEvent.failed ("Failed to stream from Ollama: " ++ m)]
  | OllamaLine.empty :: rest, ab => streamOllamaLines cfg model rest ab
  | OllamaLine.bad :: _, _ => [StreamEvent.failed ollamaDecodeErrMsg]
  | OllamaLine.good c :: rest, ab =>
      (if optTruthy c.response then [StreamEvent.token (c.response.getD "")] else []) ++
      (if c.done then [ollamaDoneMeta cfg model c] else []) ++
      streamOllamaLines cfg model rest ab

/-- Outcome of opening the Ollama streaming connection: a raised exception,
or a status code with the decoded line sequence and an optional exception
raised by the iterator after those lines. -/
inductive OllamaStreamConn
  | fail (msg : String)
  | conn (status : Nat) (lines : List OllamaLine) (abort : Option String)
deriving DecidableEq

/-- Streaming Ollama adapter. -/
def stream_ollama (cfg : Config) (model : Option String)
    (c : OllamaStreamConn) : List StreamEvent :=
  match c with
  | .fail m => [StreamEvent.failed ("Failed to stream from Ollama: " ++ m)]
  | .conn status lines ab =>
      if status = 200 then streamOllamaLines cfg model lines ab
      else [StreamEvent.failed ("Ollama returned status " ++ toString status)]

/-- One line of the vLLM server-sent event stream, as the relay classifies it:
blank, not data-prefixed, the completion sentinel, an undecodable data line,
or a decoded chunk carrying the first choice's text (empty when the chunk has
no truthy text). -/
inductive VllmLine
  | empty
  | noData
  | doneSentinel
  | malformed
  | chunk (text : String)
deriving DecidableEq

/-- The line loop of stream_vllm, carrying the running token count, with
`abort` the exception the line iterator raises once the listed lines are
exhausted (none when the stream ends cleanly): the sentinel breaks out — so
a pending iterator exception is never reached — and the final metadata event
is emitted; a malformed data line is skipped; a chunk with truthy text yields
a token and increments the count; a clean end falls through to the final
metadata event, while a mid-stream exception skips it and is caught, yielding
one error event. -/
def streamVllmLines (cfg : Config) (model : Option String) :
    List VllmLine → Nat → Option String → List StreamEvent
  | [], n, none =>
      [StreamEvent.done (pyOr model cfg.VLLM_MODEL) [("total_tokens", n)]]
  | [], _, some m => [StreamEvent.failed ("Failed to stream from vLLM: " ++ m)]
  | VllmLine.doneSentinel :: _, n, _ =>
      [StreamEvent.done (pyOr model cfg.VLLM_MODEL) [("total_tokens", n)]]
  | VllmLine.chunk t :: rest, n, ab =>
      if t ≠ "" then StreamEvent.token t :: streamVllmLines cfg model rest (n + 1) ab
      else streamVllmLines cfg model rest n ab
  | VllmLine.empty :: rest, n, ab => streamVllmLines cfg model rest n ab
  | VllmLine.noData :: rest, n, ab => streamVllmLines cfg model rest n ab
  | VllmLine.malformed :: rest, n, ab => streamVllmLines cfg model rest n ab

/-- Outcome of opening the vLLM streaming connection. -/
inductive VllmStreamConn
  | fail (msg : String)
  | conn (status : Nat) (lines : List VllmLine) (abort : Option String)
deriving DecidableEq

/-- Streaming vLLM adapter. -/
def stream_vllm (cfg : Config) (model : Option String)
    (c : VllmStreamConn) : List StreamEvent :=
  match c with
  | .fail m => [StreamEvent.failed ("Failed to stream from vLLM: " ++ m)]
  | .conn status lines ab =>
      if status = 200 then streamVllmLines cfg model lines 0 ab
      else [StreamEvent.failed ("vLLM returned status " ++ toString status)]

/-- Outcome of an OpenAI streaming call: the truthy delta contents seen before
a raised exception, or the full chunk list of a completed stream. -/
inductive OpenAIStream
  | exn (pre : List String) (msg : String)
  | ok (chunks : List String)
deriving DecidableEq

/-- Streaming OpenAI adapter: yields a token per truthy delta, counts them,
and ends with the final metadata event, or an error event if the call raises. -/
def stream_openai (cfg : Config) (clientOk : Bool) (model : Option String)
    (s : OpenAIStream) : List StreamEvent :=
  if !clientOk then [StreamEvent.failed "OpenAI client not available"]
  else
    match s with
    | .exn pre msg =>
        ((pre.filter (fun t => t ≠ "")).map StreamEvent.token) ++
          [StreamEvent.failed ("Failed to stream from OpenAI: " ++ msg)]
    | .ok chunks =>
        let toks := chunks.filter (fun t => t ≠ "")
        (toks.map StreamEvent.token) ++
          [StreamEvent.done (pyOr model cfg.LLM_MODEL) [("total_tokens", toks.length)]]

/-- Outcome of an Anthropic streaming call: the texts seen before a raised
exception, or the full text list with the final message's metadata. -/
inductive AnthropicStream
  | exn (pre : List String) (msg : String)
  | ok (chunks : List String) (finalModel : String) (input_tokens output_tokens : Nat)
deriving DecidableEq

/-- Streaming Anthropic adapter: yields every text of the text stream, then
the final message metadata, or an error event if the call raises. -/
def stream_anthropic (cfg : Config) (clientOk : Bool) (model : Option String)
    (s : AnthropicStream) : List StreamEvent :=
  if !clientOk then [StreamEvent.failed "Anthropic client not available"]
  else
    match s with
    | .exn pre msg =>
        (pre.map StreamEvent.token) ++
          [StreamEvent.failed ("Failed to stream from Anthropic: " ++ msg)]
    | .ok chunks finalModel inTok outTok =>
        (chunks.map StreamEvent.token) ++
          [StreamEvent.done finalModel
            [("input_tokens", inTok), ("output_tokens", outTok)]]

/-- The fixed upstream world one dispatch call runs against: client
availability and each backend's response behaviour. -/
structure World where
  openaiClient : Bool := true
  anthropicClient : Bool := true
  openaiCall : OpenAICall := OpenAICall.exn "unreachable"
  anthropicCall : AnthropicCall := AnthropicCall.exn "unreachable"
  ollamaConn : OllamaConn := OllamaConn.exn "unreachable"
  vllmConn : VllmConn := VllmConn.exn "unreachable"
  openaiStream : OpenAIStream := OpenAIStream.exn [] "unreachable"
  anthropicStream : AnthropicStream := AnthropicStream.exn [] "unreachable"
  ollamaStream : OllamaStreamConn := OllamaStreamConn.fail "unreachable"
  vllmStream : VllmStreamConn := VllmStreamConn.fail "unreachable"
deriving DecidableEq

/-- Single-shot dispatch router: string-matches the configured provider name
and forwards to the adapter; an unknown name yields the unsupported-provider
error dictionary. -/
def query_llm_provider (cfg : Config) (provider : String) (w : World)
    (prompt : String) (model : Option String) : ProviderResult :=
  if provider = "openai" then query_openai cfg w.openaiClient w.openaiCall prompt model
  else if provider = "anthropic" then query_anthropic cfg w.anthropicClient w.anthropicCall prompt model
  else if provider = "ollama" then query_ollama cfg w.ollamaConn prompt model
  else if provider = "vllm" then query_vllm cfg w.vllmConn prompt model
  else if provider = "local" then query_ollama cfg w.ollamaConn prompt model
  else .err ("Unsupported LLM provider: " ++ provider)

/-- Streaming dispatch router: same selection; an unknown name yields one
error event as the whole stream. -/
def stream_llm_provider (cfg : Config) (provider : String) (w : World)
    (prompt : String) (model : Option String) : List StreamEvent :=
  if provider = "openai" then stream_openai cfg w.openaiClient model w.openaiStream
  else if provider = "anthropic" then stream_anthropic cfg w.anthropicClient model w.anthropicStream
  else if provider = "ollama" then stream_ollama cfg model w.ollamaStream
  else if provider = "vllm" then stream_vllm cfg model w.vllmStream
  else if provider = "local" then stream_ollama cfg model w.ollamaStream
  else [StreamEvent.failed ("Unsupported LLM provider: " ++ provider)]

/-- The standardized response of the query endpoint. -/
structure ResponseData where
  response : String
  provider : String
  model : String
  metrics : List (String × Nat)
  finish_reason : Option String := none
deriving DecidableEq

/-- Numeric lookup in an association list with default 0 (dict get). -/
def lookupN (l : List (String × Nat)) (k : String) : Nat :=
  match l.find? (fun kv => kv.1 = k) with
  | some kv => kv.2
  | none => 0

/-- The provider-specific metric block the query endpoint adds. -/
def providerMetrics (provider : String) (r : LLMResult) : List (String × Nat) :=
  if provider = "ollama" ∨ provider = "local" then
    [("total_duration", r.total_duration.getD 0),
     ("load_duration", r.load_duration.getD 0),
     ("prompt_eval_duration", r.prompt_eval_duration.getD 0),
     ("eval_duration", r.eval_duration.getD 0),
     ("eval_count", r.eval_count.getD 0)]
  else if provider = "vllm" then
    [("total_tokens", lookupN r.usage "total_tokens"),
     ("prompt_tokens", lookupN r.usage "prompt_tokens"),
     ("completion_tokens", lookupN r.usage "completion_tokens")]
  else if provider = "openai" then
    [("total_tokens", r.total_tokens.getD 0),
     ("prompt_tokens", r.prompt_tokens.getD 0),
     ("completion_tokens", r.completion_tokens.getD 0)]
  else if provider = "anthropic" then
    [("input_tokens", r.input_tokens.getD 0),
     ("output_tokens", r.output_tokens.getD 0)]
  else []

/-- Result of the query endpoint: a standardized body, or an error body with
its HTTP code. -/
inductive EndpointResult
  | ok (d : ResponseData)
  | err (msg : String) (code : Nat)
deriving DecidableEq

/-- The query endpoint: rejects a missing prompt with 400, surfaces a
provider error dictionary with 500, and otherwise standardizes the result,
defaulting the model field from the request. -/
def query_llm (cfg : Config) (provider : String) (w : World)
    (body : Option (String × Option String)) : EndpointResult :=
  match body with
  | none => .err "Missing prompt in request body" 400
  | some (prompt, model) =>
      match query_llm_provider cfg provider w prompt model with
      | .err msg => .err msg 500
      | .ok r =>
          .ok { response := r.response.getD "",
                provider := provider,
                model := r.model.getD (pyOr model "unknown"),
                metrics := providerMetrics provider r,
                finish_reason :=
                  if provider = "vllm" then some (r.finish_reason.getD "stop") else none }

/-- Outcome of a liveness probe GET: a response with its status, or a raised
exception. -/
inductive ProbeResult
  | resp (status : Nat)
  | exn
deriving DecidableEq

/-- Probe folding used by the health endpoint: up on 200, down otherwise or
on any exception. -/
def probeUp (p : ProbeResult) : String :=
  match p with
  | .resp s => if s = 200 then "up" else "down"
  | .exn => "down"

/-- The probe world a health request runs against. -/
structure HealthWorld where
  ollamaTags : ProbeResult := ProbeResult.exn
  vllmModels : ProbeResult := ProbeResult.exn
deriving DecidableEq

/-- The health report. -/
structure HealthStatus where
  status : String
  llm_provider : String
  services : List (String × String)
deriving DecidableEq

/-- The llm component's status: a short-timeout probe for ollama and vllm, the
presence of a truthy API key for the external key-bearing providers, and the
initial "unknown" for any other provider name. -/
def llmComponent (cfg : Config) (provider : String) (w : HealthWorld) : String :=
  if provider = "ollama" ∨ provider = "local" then probeUp w.ollamaTags
  else if provider = "vllm" then probeUp w.vllmModels
  else if provider = "openai" ∨ provider = "anthropic" then
    (if optTruthy cfg.LLM_API_KEY then "up" else "down")
  else "unknown"

/-- The health endpoint: starts healthy with api up, folds the llm component
in, and degrades the overall status when any component is down. -/
def health_check (cfg : Config) (provider : String) (w : HealthWorld) : HealthStatus :=
  let services := [("api", "up"), ("llm", llmComponent cfg provider w)]
  { status := if services.any (fun kv => kv.2 = "down") then "degraded" else "healthy",
    llm_provider := provider,
    services := services }

/-- Event classifiers. -/
def isToken : StreamEvent → Bool
  | StreamEvent.token _ => true
  | _ => false

def isDone : StreamEvent → Bool
  | StreamEvent.done _ _ => true
  | _ => false

def isFailed : StreamEvent → Bool
  | StreamEvent.failed _ => true
  | _ => false

def isTerminal (e : StreamEvent) : Bool := isDone e || isFailed e

/-- Concatenation of the texts of all token events, in order. -/
def concatTokens : List StreamEvent → String
  | [] => ""
  | StreamEvent.token t :: rest => t ++ concatTokens rest
  | _ :: rest => concatTokens rest

/-- Concatenation of the partial-text fields of a chunk list (an absent field
contributes the empty string). -/
def joinResponses : List OllamaChunk → String
  | [] => ""
  | c :: rest => c.response.getD "" ++ joinResponses rest

/-- A stream is well terminated when it is nonempty, its last event is
terminal, and every earlier event is a token — i.e. there is exactly one
terminal event, all tokens precede it, and nothing follows it. -/
def wellTerminated : List StreamEvent → Bool
  | [] => false
  | [e] => isTerminal e
  | e :: e2 :: rest => isToken e && wellTerminated (e2 :: rest)

/-- A well-formed Ollama stream body: all lines decodable chunks, with
exactly one done chunk, in final position. -/
def wfOllamaLines : List OllamaLine → Bool
  | [] => false
  | [OllamaLine.good c] => c.done
  | OllamaLine.good c :: l :: rest => !c.done && wfOllamaLines (l :: rest)
  | _ => false

/-- A well-formed Ollama stream connection: either the request failed, or the
status is not 200, or the line sequence is well formed and the iterator ends
cleanly after it. -/
def wfOllamaStream : OllamaStreamConn → Bool
  | OllamaStreamConn.fail _ => true
  | OllamaStreamConn.conn status lines ab =>
      status ≠ 200 || (wfOllamaLines lines && ab.isNone)

/-- String containment, witnessed by a decomposition. -/
def includesStr (s t : String) : Prop := ∃ a b, s = a ++ t ++ b

/-- The error-message sets realizing the spec's error taxonomy kinds, as the
adapters produce them. -/
def hasKindUnsupported (msg : String) : Prop :=
  ∃ p, msg = "Unsupported LLM provider: " ++ p

def hasKindTimeout (msg : String) : Prop :=
  msg = "Request to Ollama timed out" ∨ msg = "Request to vLLM timed out"

/-- The model field of a standardized endpoint result, none on error. -/
def endpointModel : EndpointResult → Option String
  | EndpointResult.ok d => some d.model
  | EndpointResult.err _ _ => none

/-- Each provider's configured default model, as its adapter falls back to it
when the query names no model. -/
def defaultModel (cfg : Config) : String → String
  | "openai" => cfg.LLM_MODEL
  | "anthropic" => anthropicRequestModel cfg none
  | "vllm" => cfg.VLLM_MODEL
  | _ => cfg.OLLAMA_MODEL

/-- A reachable, model-echoing stub upstream for a model-less query: every
backend answers with status 200 (clients available), and the model named in
each response is the one the adapter requested — which, with no model in the
query, is the provider's configured default. -/
def EchoStub (cfg : Config) (w : World) : Prop :=
  w.openaiClient = true ∧ w.anthropicClient = true ∧
  (∃ r : OpenAIResponse, w.openaiCall = OpenAICall.ok r ∧ r.model = cfg.LLM_MODEL) ∧
  (∃ r : AnthropicResponse, w.anthropicCall = AnthropicCall.ok r ∧
    r.model = anthropicRequestModel cfg none) ∧
  (∃ b : LLMResult, w.ollamaConn = OllamaConn.resp 200 "" b ∧
    b.model = some cfg.OLLAMA_MODEL) ∧
  (∃ (d : VllmData) (c : VllmChoice) (cs : List VllmChoice),
    w.vllmConn = VllmConn.resp 200 "" d ∧ d.choices = c :: cs ∧
    d.model = some cfg.VLLM_MODEL)

/-- A chunk carrying only partial text. -/
def tokChunkEx (s : String) : OllamaChunk := { response := some s }

/-- A terminal chunk carrying only the done flag and a token count. -/
def doneChunkEx : OllamaChunk := { done := true, eval_count := some 4 }

/-- Three token frames with no terminal frame: an upstream that drops
mid-stream. -/
def threeTokLines : List OllamaLine :=
  [OllamaLine.good (tokChunkEx "Paris"), OllamaLine.good (tokChunkEx " is"),
   OllamaLine.good (tokChunkEx " the")]

/-- The concrete scenario of the spec: four token chunks then a done frame. -/
def parisChunks : List OllamaChunk :=
  [tokChunkEx "Paris", tokChunkEx " is", tokChunkEx " the", tokChunkEx " capital",
   doneChunkEx]

/-- The single-shot answer of the same deterministic stub. -/
def parisBody : LLMResult :=
  { response := some "Paris is the capital", model := some "gemma3n:e2b",
    eval_count := some 4 }

/-- A world where the Ollama backend is that deterministic stub, on both paths. -/
def parisWorld : World :=
  { ollamaStream := OllamaStreamConn.conn 200 (parisChunks.map OllamaLine.good) none,
    ollamaConn := OllamaConn.resp 200 "" parisBody }

/-- A concrete model-echoing stub world for the default configuration. -/
def echoWorld : World :=
  { openaiClient := true, anthropicClient := true,
    openaiCall := OpenAICall.ok { content := "hi", model := "gpt-3.5-turbo" },
    anthropicCall := AnthropicCall.ok { text := "hi", model := "gpt-3.5-turbo" },
    ollamaConn := OllamaConn.resp 200 ""
      { response := some "hi", model := some "gemma3n:e2b" },
    vllmConn := VllmConn.resp 200 ""
      { model := some "facebook/opt-125m", choices := [{ text := "hi" }] } }

/-- Concatenating token texts distributes over stream append. -/
theorem concatTokens_append (a b : List StreamEvent) :
    concatTokens (a ++ b) = concatTokens a ++ concatTokens b := by
  induction a with
  | nil => simp [concatTokens]
  | cons e rest ih =>
      cases e <;> simp [concatTokens, ih, String.append_assoc]

/-- Prepending a token preserves well-termination. -/
theorem wellTerminated_cons_token (t : String) (es : List StreamEvent)
    (h : wellTerminated es = true) :
    wellTerminated (StreamEvent.token t :: es) = true := by
  cases es with
  | nil => simp [wellTerminated] at h
  | cons e rest => simp [wellTerminated, isToken, h]

/-- A probe folds to up or down, never anything else. -/
theorem probeUp_cases (p : ProbeResult) : probeUp p = "up" ∨ probeUp p = "down" := by
  cases p with
  | resp s => by_cases h : s = 200 <;> simp [probeUp, h]
  | exn => simp [probeUp]

/-- The llm component's status is always one of up, down, unknown. -/
theorem llmComponent_cases (cfg : Config) (provider : String) (w : HealthWorld) :
    llmComponent cfg provider w = "up" ∨ llmComponent cfg provider w = "down" ∨
      llmComponent cfg provider w = "unknown" := by
  unfold llmComponent
  split_ifs with h1 h2 h3 h4
  · rcases probeUp_cases w.ollamaTags with h | h <;> simp [h]
  · rcases probeUp_cases w.vllmModels with h | h <;> simp [h]
  · simp
  · simp
  · simp

/-- Claim C10: the configured provider name "local" is a backward-compatibility
alias for "ollama" — the single-shot router and the streaming router produce
exactly the same result and event sequence under either name, for every
configuration, upstream world, prompt and model. -/
theorem local_alias (cfg : Config) (w : World) (prompt : String) (model : Option String) :
    query_llm_provider cfg "local" w prompt model
        = query_llm_provider cfg "ollama" w prompt model ∧
    stream_llm_provider cfg "local" w prompt model
        = stream_llm_provider cfg "ollama" w prompt model :=
  ⟨rfl, rfl⟩

/-- Claim C3: for every configured provider name outside the set the router
supports, the single-shot router returns the normalized unsupported-provider
error (of kind Unsupported, never a raised exception), and the streaming
router emits that error as the sole event of the stream — no token and no
done event. -/
theorem unsupported_provider (cfg : Config) (w : World) (prompt : String)
    (model : Option String) (p : String)
    (h : p ≠ "openai" ∧ p ≠ "anthropic" ∧ p ≠ "ollama" ∧ p ≠ "vllm" ∧ p ≠ "local") :
    query_llm_provider cfg p w prompt model
        = ProviderResult.err ("Unsupported LLM provider: " ++ p) ∧
    hasKindUnsupported ("Unsupported LLM provider: " ++ p) ∧
    stream_llm_provider cfg p w prompt model
        = [StreamEvent.failed ("Unsupported LLM provider: " ++ p)] := by
  obtain ⟨h1, h2, h3, h4, h5⟩ := h
  refine ⟨?_, ⟨p, rfl⟩, ?_⟩ <;>
    simp [query_llm_provider, stream_llm_provider, h1, h2, h3, h4, h5]

/-- Witness for C3 at the concrete unsupported provider name "cohere". -/
theorem unsupported_provider_witness :
    query_llm_provider defaultCfg "cohere" {} "hi" none
        = ProviderResult.err ("Unsupported LLM provider: " ++ "cohere") ∧
    hasKindUnsupported ("Unsupported LLM provider: " ++ "cohere") ∧
    stream_llm_provider defaultCfg "cohere" {} "hi" none
        = [StreamEvent.failed ("Unsupported LLM provider: " ++ "cohere")] :=
  unsupported_provider defaultCfg {} "hi" none "cohere"
    ⟨by decide, by decide, by decide, by decide, by decide⟩

/-- Claim C6: on a non-200 upstream status the single-shot adapters return a
normalized error whose message includes the status code and the response
body, and the streaming adapters emit a single Failed event carrying the
status — the whole stream is that one event, so no token precedes or follows
it. -/
theorem non200_status (cfg : Config) (prompt : String) (model : Option String)
    (status : Nat) (text : String) (body : LLMResult) (lines : List OllamaLine)
    (vdata : VllmData) (vlines : List VllmLine) (ab vab : Option String)
    (h : status ≠ 200) :
    query_ollama cfg (OllamaConn.resp status text body) prompt model
        = ProviderResult.err ("Ollama returned status " ++ toString status ++ ": " ++ text) ∧
    includesStr ("Ollama returned status " ++ toString status ++ ": " ++ text)
      (toString status) ∧
    includesStr ("Ollama returned status " ++ toString status ++ ": " ++ text) text ∧
    stream_ollama cfg model (OllamaStreamConn.conn status lines ab)
        = [StreamEvent.failed ("Ollama returned status " ++ toString status)] ∧
    query_vllm cfg (VllmConn.resp status text vdata) prompt model
        = ProviderResult.err ("vLLM returned status " ++ toString status ++ ": " ++ text) ∧
    stream_vllm cfg model (VllmStreamConn.conn status vlines vab)
        = [StreamEvent.failed ("vLLM returned status " ++ toString status)] := by
  refine ⟨?_,
    ⟨"Ollama returned status ", ": " ++ text, by rw [String.append_assoc]⟩,
    ⟨"Ollama returned status " ++ toString status ++ ": ", "", by simp⟩,
    ?_, ?_, ?_⟩ <;>
  simp [query_ollama, stream_ollama, query_vllm, stream_vllm, h]

/-- Witness for C6 at the concrete status 503 with body "busy". -/
theorem non200_status_witness :
    query_ollama defaultCfg (OllamaConn.resp 503 "busy" {}) "hi" none
        = ProviderResult.err ("Ollama returned status " ++ toString 503 ++ ": " ++ "busy") ∧
    includesStr ("Ollama returned status " ++ toString 503 ++ ": " ++ "busy")
      (toString 503) ∧
    includesStr ("Ollama returned status " ++ toString 503 ++ ": " ++ "busy") "busy" ∧
    stream_ollama defaultCfg none (OllamaStreamConn.conn 503 [] none)
        = [StreamEvent.failed ("Ollama returned status " ++ toString 503)] ∧
    query_vllm defaultCfg (VllmConn.resp 503 "busy" {}) "hi" none
        = ProviderResult.err ("vLLM returned status " ++ toString 503 ++ ": " ++ "busy") ∧
    stream_vllm defaultCfg none (VllmStreamConn.conn 503 [] none)
        = [StreamEvent.failed ("vLLM returned status " ++ toString 503)] :=
  non200_status defaultCfg "hi" none 503 "busy" {} [] {} [] none none (by decide)

/-- Counterexample to C8 as stated: the OpenAI adapter's completion call
passes no timeout argument at all, so not every adapter issues its upstream
request with a 60-unit bound. -/
theorem timeout_bound_cex :
    (openaiCreateArgs defaultCfg none).timeout ≠ some 60 := by
  decide

/-- Claim C8 amended: the Ollama and vLLM single-shot adapters issue their
upstream POST with timeout 60 and map an elapsed timeout to a normalized
Timeout error; the OpenAI adapter's client call passes no explicit timeout
argument. -/
theorem timeout_bound_amended (cfg : Config) (prompt : String) (model : Option String) :
    (ollamaQueryCall cfg).timeout = some 60 ∧
    (vllmQueryCall cfg).timeout = some 60 ∧
    query_ollama cfg OllamaConn.timeout prompt model
        = ProviderResult.err "Request to Ollama timed out" ∧
    hasKindTimeout "Request to Ollama timed out" ∧
    query_vllm cfg VllmConn.timeout prompt model
        = ProviderResult.err "Request to vLLM timed out" ∧
    hasKindTimeout "Request to vLLM timed out" ∧
    (openaiCreateArgs cfg model).timeout = none :=
  ⟨rfl, rfl, rfl, Or.inl rfl, rfl, Or.inr rfl, rfl⟩

/-- Claim C7: the health check is a total function (it never raises); the
overall verdict is healthy exactly when every checked component — every
component whose status is not the unchecked marker "unknown" — is up, and is
degraded otherwise; an unreachable liveness probe yields down for the llm
component (degrading the verdict); and for the key-bearing external providers
a configured credential counts as up. -/
theorem health_aggregation (cfg : Config) (provider : String) (w : HealthWorld) :
    ((health_check cfg provider w).status = "healthy" ↔
      ∀ kv ∈ (health_check cfg provider w).services, kv.2 ≠ "unknown" → kv.2 = "up") ∧
    ((health_check cfg provider w).status = "healthy" ∨
      (health_check cfg provider w).status = "degraded") ∧
    (∀ v, (health_check cfg "ollama" ⟨ProbeResult.exn, v⟩).services
        = [("api", "up"), ("llm", "down")] ∧
      (health_check cfg "ollama" ⟨ProbeResult.exn, v⟩).status = "degraded") ∧
    (health_check cfg "openai" w).services
        = [("api", "up"), ("llm", if optTruthy cfg.LLM_API_KEY then "up" else "down")] := by
  refine ⟨?_, ?_, ?_, ?_⟩
  · rcases llmComponent_cases cfg provider w with h | h | h <;>
      simp [health_check, h]
  · rcases llmComponent_cases cfg provider w with h | h | h <;>
      simp [health_check, h]
  · intro v
    constructor <;> simp [health_check, llmComponent, probeUp]
  · by_cases k : optTruthy cfg.LLM_API_KEY <;>
      simp [health_check, llmComponent, k]

/-- A falsy optional response field defaults to the empty string. -/
theorem optTruthy_false_getD (o : Option String) (h : optTruthy o = false) :
    o.getD "" = "" := by
  cases o with
  | none => rfl
  | some s => simpa [optTruthy] using h

/-- Routing reductions for the ollama provider name. -/
theorem query_llm_provider_ollama (cfg : Config) (w : World) (prompt : String)
    (model : Option String) :
    query_llm_provider cfg "ollama" w prompt model
      = query_ollama cfg w.ollamaConn prompt model := rfl

theorem stream_llm_provider_ollama (cfg : Config) (w : World) (prompt : String)
    (model : Option String) :
    stream_llm_provider cfg "ollama" w prompt model
      = stream_ollama cfg model w.ollamaStream := rfl

/-- Over decodable chunk lines, the token texts the Ollama relay emits
concatenate to the concatenation of the chunks' partial-text fields. -/
theorem concatTokens_streamOllamaLines (cfg : Config) (model : Option String)
    (chunks : List OllamaChunk) :
    concatTokens (streamOllamaLines cfg model (chunks.map OllamaLine.good) none)
      = joinResponses chunks := by
  induction chunks with
  | nil => rfl
  | cons c rest ih =>
      rw [List.map_cons]
      show concatTokens
        ((if optTruthy c.response then [StreamEvent.token (c.response.getD "")] else []) ++
          (if c.done then [ollamaDoneMeta cfg model c] else []) ++
          streamOllamaLines cfg model (rest.map OllamaLine.good) none)
        = joinResponses (c :: rest)
      rw [concatTokens_append, concatTokens_append]
      by_cases hr : optTruthy c.response <;> by_cases hd : c.done <;>
        simp [hr, hd, concatTokens, ih, joinResponses, ollamaDoneMeta,
          String.append_assoc, optTruthy_false_getD]

/-- Every vLLM relay stream ends in exactly one terminal event with only
tokens before it, whatever the decoded line sequence. -/
theorem wellTerminated_streamVllmLines (cfg : Config) (model : Option String) :
    ∀ (lines : List VllmLine) (n : Nat) (ab : Option String),
      wellTerminated (streamVllmLines cfg model lines n ab) = true := by
  intro lines
  induction lines with
  | nil => intro n ab; cases ab <;> rfl
  | cons hd tl ih =>
      intro n ab
      cases hd with
      | empty => simpa [streamVllmLines] using ih n ab
      | noData => simpa [streamVllmLines] using ih n ab
      | doneSentinel => rfl
      | malformed => simpa [streamVllmLines] using ih n ab
      | chunk t =>
          by_cases h : t = ""
          · simpa [streamVllmLines, h] using ih n ab
          · simpa [streamVllmLines, h] using
              wellTerminated_cons_token t _ (ih (n + 1) ab)

/-- Over a well-formed line sequence — every line decodable, exactly one done
chunk, in final position — the Ollama relay stream is well terminated. -/
theorem wellTerminated_streamOllamaLines (cfg : Config) (model : Option String) :
    ∀ lines : List OllamaLine, wfOllamaLines lines = true →
      wellTerminated (streamOllamaLines cfg model lines none) = true := by
  intro lines
  induction lines with
  | nil => intro h; simp [wfOllamaLines] at h
  | cons hd tl ih =>
      intro h
      cases hd with
      | empty => simp [wfOllamaLines] at h
      | bad => simp [wfOllamaLines] at h
      | good c =>
          cases tl with
          | nil =>
              have hc : c.done = true := by simpa [wfOllamaLines] using h
              by_cases hr : optTruthy c.response <;>
                simp [streamOllamaLines, hr, hc, wellTerminated, isToken,
                  isTerminal, isDone, ollamaDoneMeta]
          | cons l rest =>
              have h1 : c.done = false ∧ wfOllamaLines (l :: rest) = true := by
                simpa [wfOllamaLines] using h
              have hrec := ih h1.2
              by_cases hr : optTruthy c.response
              · simpa [streamOllamaLines, hr, h1.1] using
                  wellTerminated_cons_token _ _ hrec
              · simpa [streamOllamaLines, hr, h1.1] using hrec

/-- Claim C1: against a deterministic Ollama stub — one whose single-shot
answer is the concatenation of the partial texts of its streamed frames — the
concatenation of the texts of all token events produced by the streaming
router equals the response string returned by the single-shot router for the
same query. -/
theorem stream_single_shot_equiv (cfg : Config) (w : World) (prompt : String)
    (model : Option String) (chunks : List OllamaChunk) (body : LLMResult)
    (hs : w.ollamaStream = OllamaStreamConn.conn 200 (chunks.map OllamaLine.good) none)
    (hq : w.ollamaConn = OllamaConn.resp 200 "" body)
    (hb : body.response = some (joinResponses chunks)) :
    ∃ r, query_llm_provider cfg "ollama" w prompt model = ProviderResult.ok r ∧
      concatTokens (stream_llm_provider cfg "ollama" w prompt model)
        = r.response.getD "" := by
  refine ⟨body, ?_, ?_⟩
  · rw [query_llm_provider_ollama, hq]
    simp [query_ollama]
  · rw [stream_llm_provider_ollama, hs]
    simp [stream_ollama, concatTokens_streamOllamaLines, hb]

/-- Witness for C1 at the concrete stub of the spec's Paris scenario. -/
theorem stream_single_shot_equiv_witness :
    ∃ r, query_llm_provider defaultCfg "ollama" parisWorld
        "What is the capital of France?" none = ProviderResult.ok r ∧
      concatTokens (stream_llm_provider defaultCfg "ollama" parisWorld
        "What is the capital of France?" none) = r.response.getD "" :=
  stream_single_shot_equiv defaultCfg parisWorld "What is the capital of France?"
    none parisChunks parisBody rfl rfl (by decide)

/-- Counterexample to C2 as stated: the Ollama relay has no break after the
done frame, so an upstream that sends a frame after its done frame produces a
token event after the terminal event — the stream is not well terminated. -/
theorem stream_termination_cex :
    wellTerminated (stream_ollama defaultCfg none
      (OllamaStreamConn.conn 200 [OllamaLine.good doneChunkEx,
        OllamaLine.good (tokChunkEx "after")] none)) = false := by
  decide

/-- Claim C2 amended: every vLLM relay stream contains exactly one terminal
event, every token precedes it, and nothing follows it; the Ollama relay
stream satisfies the same property provided the connection fails, returns a
non-200 status, or delivers a well-formed line sequence — single done frame,
in final position, clean end after it — since the relay does not stop
consuming after a done frame: frames or an iterator failure after it would
produce further events, and a stream that closes with no done frame produces
no terminal event. -/
theorem stream_termination_amended (cfg : Config) (model : Option String) :
    (∀ c : VllmStreamConn, wellTerminated (stream_vllm cfg model c) = true) ∧
    (∀ c : OllamaStreamConn, wfOllamaStream c = true →
      wellTerminated (stream_ollama cfg model c) = true) := by
  constructor
  · intro c
    cases c with
    | fail m => rfl
    | conn status lines ab =>
        by_cases h : status = 200
        · simpa [stream_vllm, h] using
            wellTerminated_streamVllmLines cfg model lines 0 ab
        · simp [stream_vllm, h, wellTerminated, isTerminal, isFailed]
  · intro c hc
    cases c with
    | fail m => rfl
    | conn status lines ab =>
        by_cases h : status = 200
        · have hl : wfOllamaLines lines = true ∧ ab = none := by
            simpa [wfOllamaStream, h, Option.isNone_iff_eq_none] using hc
          rw [hl.2] at hc ⊢
          simpa [stream_ollama, h] using
            wellTerminated_streamOllamaLines cfg model lines hl.1
        · simp [stream_ollama, h, wellTerminated, isTerminal, isFailed]

/-- Witness for C2 amended at a concrete well-formed Ollama stream. -/
theorem stream_termination_amended_witness :
    wellTerminated (stream_ollama defaultCfg none
      (OllamaStreamConn.conn 200 [OllamaLine.good (tokChunkEx "Paris"),
        OllamaLine.good doneChunkEx] none)) = true :=
  (stream_termination_amended defaultCfg none).2 _ (by decide)

/-- Counterexample to C4 as stated: on an upstream that drops after three
token frames with no terminal frame, the Ollama relay yields the three token
events and then nothing — no terminal event at all, rather than a Done with
empty metrics. -/
theorem early_close_cex :
    stream_ollama defaultCfg none (OllamaStreamConn.conn 200 threeTokLines none)
        = [StreamEvent.token "Paris", StreamEvent.token " is",
           StreamEvent.token " the"] ∧
    (stream_ollama defaultCfg none
        (OllamaStreamConn.conn 200 threeTokLines none)).filter isTerminal = [] := by
  constructor <;> rfl

/-- Over token-only chunk lines the Ollama relay emits exactly the token
events, in order, and nothing else. -/
theorem streamOllamaLines_noDone (cfg : Config) (model : Option String)
    (texts : List String) (h : ∀ t ∈ texts, t ≠ "") :
    streamOllamaLines cfg model
        (texts.map (fun t => OllamaLine.good (tokChunkEx t))) none
      = texts.map StreamEvent.token := by
  induction texts with
  | nil => rfl
  | cons t ts ih =>
      have ht : t ≠ "" := h t (by simp)
      have ih2 := ih (fun x hx => h x (by simp [hx]))
      simp only [tokChunkEx] at ih2
      simp [streamOllamaLines, tokChunkEx, optTruthy, ht, ih2]

/-- Over chunk-only lines with no sentinel, the vLLM relay emits the token
events in order and then the final metadata event with the running count. -/
theorem streamVllmLines_noSentinel (cfg : Config) (model : Option String)
    (texts : List String) (h : ∀ t ∈ texts, t ≠ "") :
    ∀ n : Nat, streamVllmLines cfg model (texts.map VllmLine.chunk) n none
      = texts.map StreamEvent.token ++
        [StreamEvent.done (pyOr model cfg.VLLM_MODEL)
          [("total_tokens", n + texts.length)]] := by
  induction texts with
  | nil => intro n; simp [streamVllmLines]
  | cons t ts ih =>
      intro n
      have ht : t ≠ "" := h t (by simp)
      have ih2 := ih (fun x hx => h x (by simp [hx])) (n + 1)
      simp only [List.map_cons, streamVllmLines, if_pos ht, ih2]
      simp [Nat.add_assoc, Nat.add_comm, Nat.add_left_comm]

/-- Claim C4 amended: when the upstream closes after N token frames with no
terminal frame, neither relay raises and both retain the partial output — the
Ollama relay yields exactly the N token events in order and then ends with no
terminal event; the vLLM relay yields the N token events and then exactly one
Done event carrying the requested-or-default model and the locally counted
total_tokens = N. -/
theorem early_close_amended (cfg : Config) (model : Option String)
    (texts : List String) (h : ∀ t ∈ texts, t ≠ "") :
    stream_ollama cfg model (OllamaStreamConn.conn 200
        (texts.map (fun t => OllamaLine.good (tokChunkEx t))) none)
      = texts.map StreamEvent.token ∧
    stream_vllm cfg model (VllmStreamConn.conn 200 (texts.map VllmLine.chunk) none)
      = texts.map StreamEvent.token ++
        [StreamEvent.done (pyOr model cfg.VLLM_MODEL)
          [("total_tokens", texts.length)]] := by
  constructor
  · simpa [stream_ollama] using streamOllamaLines_noDone cfg model texts h
  · simpa [stream_vllm] using streamVllmLines_noSentinel cfg model texts h 0

/-- Witness for C4 amended at the concrete three-token drop scenario. -/
theorem early_close_amended_witness :
    stream_ollama defaultCfg none (OllamaStreamConn.conn 200
        (["Paris", " is", " the"].map (fun t => OllamaLine.good (tokChunkEx t))) none)
      = ["Paris", " is", " the"].map StreamEvent.token ∧
    stream_vllm defaultCfg none
        (VllmStreamConn.conn 200 (["Paris", " is", " the"].map VllmLine.chunk) none)
      = ["Paris", " is", " the"].map StreamEvent.token ++
        [StreamEvent.done (pyOr none defaultCfg.VLLM_MODEL)
          [("total_tokens", (["Paris", " is", " the"] : List String).length)]] :=
  early_close_amended defaultCfg none ["Paris", " is", " the"] (by decide)

/-- Counterexample to C5 as stated: the Ollama relay does not guard its frame
decoding, so a malformed frame ends the stream with a Failed event instead of
being skipped — the events differ from those of the same sequence with the
malformed frame removed. -/
theorem malformed_skip_cex :
    ¬ (streamOllamaLines defaultCfg none
        [OllamaLine.bad, OllamaLine.good (tokChunkEx "Paris")] none
      = streamOllamaLines defaultCfg none [OllamaLine.good (tokChunkEx "Paris")] none) := by
  decide

/-- Claim C5 amended: the vLLM relay skips a malformed data frame — the
emitted events equal those for the same line sequence with the malformed
frame removed, wherever it sits; the Ollama relay instead terminates the
stream with a single Failed event at the first undecodable line. -/
theorem malformed_skip_amended (cfg : Config) (model : Option String) :
    (∀ (pre post : List VllmLine) (n : Nat) (ab : Option String),
      streamVllmLines cfg model (pre ++ VllmLine.malformed :: post) n ab
        = streamVllmLines cfg model (pre ++ post) n ab) ∧
    (∀ (rest : List OllamaLine) (ab : Option String),
      streamOllamaLines cfg model (OllamaLine.bad :: rest) ab
        = [StreamEvent.failed ollamaDecodeErrMsg]) := by
  constructor
  · intro pre post
    induction pre with
    | nil => intro n ab; rfl
    | cons hd tl ih =>
        intro n ab
        cases hd with
        | empty => simpa [streamVllmLines] using ih n ab
        | noData => simpa [streamVllmLines] using ih n ab
        | doneSentinel => rfl
        | malformed => simpa [streamVllmLines] using ih n ab
        | chunk t =>
            by_cases h : t = "" <;> simp [streamVllmLines, h, ih]
  · intro rest ab
    rfl

/-- Claim C9: for every supported provider kind, a single-shot call whose
query omits the model field, routed against a reachable model-echoing stub
upstream, returns a standardized result whose model equals that provider's
configured default model. -/
theorem default_model (cfg : Config) (w : World) (prompt : String) (p : String)
    (hp : p = "openai" ∨ p = "anthropic" ∨ p = "ollama" ∨ p = "vllm" ∨ p = "local")
    (hw : EchoStub cfg w) :
    endpointModel (query_llm cfg p w (some (prompt, none)))
      = some (defaultModel cfg p) := by
  obtain ⟨ho1, ha1, ⟨ro, ho2, ho3⟩, ⟨ra, ha2, ha3⟩, ⟨bo, hb1, hb2⟩,
    ⟨vd, vc, vcs, hv1, hv2, hv3⟩⟩ := hw
  rcases hp with rfl | rfl | rfl | rfl | rfl
  · simp [query_llm, query_llm_provider, query_openai, ho1, ho2, ho3,
      endpointModel, defaultModel]
  · simp [query_llm, query_llm_provider, query_anthropic, ha1, ha2, ha3,
      endpointModel, defaultModel]
  · simp [query_llm, query_llm_provider, query_ollama, hb1, hb2,
      endpointModel, defaultModel]
  · simp [query_llm, query_llm_provider, query_vllm, hv1, hv2, hv3,
      endpointModel, defaultModel, pyOr]
  · simp [query_llm, query_llm_provider, query_ollama, hb1, hb2,
      endpointModel, defaultModel]

/-- Witness for C9 at the concrete echo world, for the ollama provider. -/
theorem default_model_witness :
    endpointModel (query_llm defaultCfg "ollama" echoWorld (some ("hi", none)))
      = some (defaultModel defaultCfg "ollama") :=
  default_model defaultCfg echoWorld "hi" "ollama"
    (Or.inr (Or.inr (Or.inl rfl)))
    ⟨rfl, rfl, ⟨{ content := "hi", model := "gpt-3.5-turbo" }, rfl, rfl⟩,
      ⟨{ text := "hi", model := "gpt-3.5-turbo" }, rfl, by decide⟩,
      ⟨{ response := some "hi", model := some "gemma3n:e2b" }, rfl, rfl⟩,
      ⟨{ model := some "facebook/opt-125m", choices := [{ text := "hi" }] },
        { text := "hi" }, [], rfl, rfl, rfl⟩⟩

end LlmDispatcher
